import Mathlib

/-!
Shallow embedding of the link-shortener repository.

The repository consists of a landing page component (the async function
Home in the app directory), a root layout (RootLayout in app/layout.tsx)
together with the constant metadata object, and documentation
(docs/auth.md, docs/shadcn-ui.md).  The rendered JSX markup is modelled
as a tree of nodes; the authentication collaborator (Clerk) is modelled
by the value its current-caller query returns for the request, which in
the source has TypeScript type string-or-null and is therefore embedded
as Option String.  The JavaScript truthiness test used by the source
(if (userId) { ... }) is false both for null and for the empty string,
which the embedding reproduces.
-/

/-- A rendered markup node: either a text node or an element with a tag
name, a list of attribute pairs and a list of children.  Component
elements such as Link, Button, Badge, Card or the Clerk widgets keep
their component name as the tag. -/
inductive Node where
  | text : String → Node
  | element : String → List (String × String) → List Node → Node
deriving Repr

mutual

/-- Does the predicate hold of this node or of any descendant? -/
def anyNode (p : Node → Bool) : Node → Bool
  | Node.text s => p (Node.text s)
  | Node.element n a cs => p (Node.element n a cs) || anyList p cs

/-- Does the predicate hold somewhere in the list of nodes? -/
def anyList (p : Node → Bool) : List Node → Bool
  | [] => false
  | c :: cs => anyNode p c || anyList p cs

end

/-- The node is a text node carrying exactly the string t.  JSX trims
whitespace at line boundaries, so the literal between tags is the
trimmed text. -/
def isText (t : String) : Node → Bool
  | Node.text s => s = t
  | Node.element _ _ _ => false

/-- The subtree contains the text t somewhere. -/
def containsText (t : String) (n : Node) : Bool :=
  anyNode (isText t) n

/-- The node is an element with the given tag name. -/
def isElem (name : String) : Node → Bool
  | Node.text _ => false
  | Node.element n _ _ => n = name

/-- The subtree contains an element with the given tag name. -/
def containsElem (name : String) (n : Node) : Bool :=
  anyNode (isElem name) n

/-- The node is a navigation link (a next/link Link element) whose href
attribute is the given route. -/
def isLinkTo (href : String) : Node → Bool
  | Node.text _ => false
  | Node.element n attrs _ => n = "Link" && attrs.contains ("href", href)

/-- The subtree contains a navigation link to the given route. -/
def containsLinkTo (href : String) (n : Node) : Bool :=
  anyNode (isLinkTo href) n

/-- The node contains the text t inside some heading element (h1 or h2). -/
def containsHeadingText (t : String) (n : Node) : Bool :=
  anyNode (fun x =>
    match x with
    | Node.text _ => false
    | Node.element name _ cs =>
        (name = "h1" || name = "h2") && anyList (isText t) cs) n

/-- Hero section of the marketing page, translated from the JSX of Home. -/
def heroSection : Node :=
  Node.element "section"
    [("className", "flex flex-col items-center justify-center px-4 py-24 md:py-32 bg-gradient-to-b from-background to-muted/20")]
    [Node.element "div" [("className", "container max-w-6xl mx-auto text-center")]
      [Node.element "Badge" [("variant", "secondary"), ("className", "mb-4")]
        [Node.text "Free & Open Source"],
       Node.element "h1" [("className", "text-4xl md:text-6xl font-bold tracking-tight mb-6")]
        [Node.text "Shorten Links.",
         Node.element "br" [] [],
         Node.element "span" [("className", "text-primary")] [Node.text "Track Results."]],
       Node.element "p" [("className", "text-xl text-muted-foreground max-w-2xl mx-auto mb-8")]
        [Node.text "Create short, memorable links in seconds. Track clicks, analyze performance, and share with confidence. Your all-in-one URL shortening solution."],
       Node.element "div" [("className", "flex flex-col sm:flex-row gap-4 justify-center")]
        [Node.element "Button" [("asChild", ""), ("size", "lg"), ("className", "text-lg")]
          [Node.element "Link" [("href", "/sign-up")] [Node.text "Get Started Free"]],
         Node.element "Button" [("asChild", ""), ("size", "lg"), ("variant", "outline"), ("className", "text-lg")]
          [Node.element "Link" [("href", "/sign-in")] [Node.text "Sign In"]]]]]

/-- Lightning Fast feature card, translated from the JSX of Home. -/
def cardLightningFast : Node :=
  Node.element "Card" [("className", "hover:shadow-lg transition-shadow")]
    [Node.element "CardHeader" []
      [Node.element "div" [("className", "flex items-center gap-3")]
        [Node.element "div" [("className", "p-2 bg-primary/10 rounded-lg")]
          [Node.element "Zap" [("className", "h-6 w-6 text-primary")] []],
         Node.element "CardTitle" [] [Node.text "Lightning Fast"]]],
     Node.element "CardContent" []
      [Node.element "CardDescription" [("className", "text-base")]
        [Node.text "Create short links instantly with custom aliases. No waiting, no hassle. Just paste your URL and go."]]]

/-- Analytics and Tracking feature card, translated from the JSX of Home. -/
def cardAnalytics : Node :=
  Node.element "Card" [("className", "hover:shadow-lg transition-shadow")]
    [Node.element "CardHeader" []
      [Node.element "div" [("className", "flex items-center gap-3")]
        [Node.element "div" [("className", "p-2 bg-primary/10 rounded-lg")]
          [Node.element "BarChart3" [("className", "h-6 w-6 text-primary")] []],
         Node.element "CardTitle" [] [Node.text "Analytics & Tracking"]]],
     Node.element "CardContent" []
      [Node.element "CardDescription" [("className", "text-base")]
        [Node.text "Track clicks, analyze traffic patterns, and measure your link performance with detailed analytics."]]]

/-- Custom Short Codes feature card, translated from the JSX of Home. -/
def cardShortCodes : Node :=
  Node.element "Card" [("className", "hover:shadow-lg transition-shadow")]
    [Node.element "CardHeader" []
      [Node.element "div" [("className", "flex items-center gap-3")]
        [Node.element "div" [("className", "p-2 bg-primary/10 rounded-lg")]
          [Node.element "Link2" [("className", "h-6 w-6 text-primary")] []],
         Node.element "CardTitle" [] [Node.text "Custom Short Codes"]]],
     Node.element "CardContent" []
      [Node.element "CardDescription" [("className", "text-base")]
        [Node.text "Choose your own branded short codes to make your links memorable and professional."]]]

/-- Secure and Reliable feature card, translated from the JSX of Home. -/
def cardSecure : Node :=
  Node.element "Card" [("className", "hover:shadow-lg transition-shadow")]
    [Node.element "CardHeader" []
      [Node.element "div" [("className", "flex items-center gap-3")]
        [Node.element "div" [("className", "p-2 bg-primary/10 rounded-lg")]
          [Node.element "Shield" [("className", "h-6 w-6 text-primary")] []],
         Node.element "CardTitle" [] [Node.text "Secure & Reliable"]]],
     Node.element "CardContent" []
      [Node.element "CardDescription" [("className", "text-base")]
        [Node.text "Your links are safe with enterprise-grade security. Built on modern infrastructure for 99.9% uptime."]]]

/-- Features section of the marketing page, translated from the JSX of Home. -/
def featuresSection : Node :=
  Node.element "section" [("className", "py-24 px-4")]
    [Node.element "div" [("className", "container max-w-6xl mx-auto")]
      [Node.element "div" [("className", "text-center mb-16")]
        [Node.element "h2" [("className", "text-3xl md:text-5xl font-bold mb-4")]
          [Node.text "Everything You Need"],
         Node.element "p" [("className", "text-xl text-muted-foreground max-w-2xl mx-auto")]
          [Node.text "Powerful features to help you manage and track your shortened links"]],
       Node.element "div" [("className", "grid grid-cols-1 md:grid-cols-2 gap-6")]
        [cardLightningFast, cardAnalytics, cardShortCodes, cardSecure]]]

/-- Call-to-action section of the marketing page, translated from the JSX of Home. -/
def ctaSection : Node :=
  Node.element "section" [("className", "py-24 px-4 bg-muted/30")]
    [Node.element "div" [("className", "container max-w-4xl mx-auto text-center")]
      [Node.element "h2" [("className", "text-3xl md:text-5xl font-bold mb-6")]
        [Node.text "Ready to Get Started?"],
       Node.element "p" [("className", "text-xl text-muted-foreground mb-8 max-w-2xl mx-auto")]
        [Node.text "Join thousands of users who trust our platform for their link shortening needs. Create your free account today."],
       Node.element "Button" [("asChild", ""), ("size", "lg"), ("className", "text-lg")]
        [Node.element "Link" [("href", "/sign-up")] [Node.text "Create Your Free Account"]]]]

/-- The full static marketing markup returned by Home for an
unauthenticated caller. -/
def marketingPage : Node :=
  Node.element "div" [("className", "flex min-h-screen flex-col")]
    [heroSection, featuresSection, ctaSection]

/-- Result of handling a request: a redirect (control transfer) to a
route, carrying no markup, or a rendered markup tree. -/
inductive Response where
  | redirect : String → Response
  | render : Node → Response
deriving Repr

/-- JavaScript truthiness of the userId value returned by the auth
query: both null and the empty string are falsy. -/
def truthy : Option String → Bool
  | none => false
  | some s => s ≠ ""

/-- The Home page component.  Translated from the source: it awaits the
auth query yielding userId, redirects to /dashboard when userId is
truthy, and otherwise returns the static marketing markup. -/
def Home (userId : Option String) : Response :=
  if truthy userId then
    Response.redirect "/dashboard"
  else
    Response.render marketingPage

/-- A response contains given text only when it renders markup that does. -/
def respContainsText (t : String) : Response → Bool
  | Response.redirect _ => false
  | Response.render n => containsText t n

/-- A response contains a navigation link only when it renders markup that does. -/
def respContainsLinkTo (href : String) : Response → Bool
  | Response.redirect _ => false
  | Response.render n => containsLinkTo href n


/-- Clerk conditional-rendering primitive SignedOut: renders its
children exactly when no caller is signed in. -/
def signedOutChildren (signedIn : Bool) (cs : List Node) : List Node :=
  if signedIn then [] else cs

/-- Clerk conditional-rendering primitive SignedIn: renders its
children exactly when a caller is signed in. -/
def signedInChildren (signedIn : Bool) (cs : List Node) : List Node :=
  if signedIn then cs else []

/-- The sign-in affordance of the header: a Clerk SignInButton in modal
mode wrapping a Button, translated from RootLayout. -/
def signInButtonNode : Node :=
  Node.element "SignInButton" [("mode", "modal")]
    [Node.element "Button" [("variant", "ghost"), ("className", "text-gray-300 hover:text-white")]
      [Node.text "Sign In"]]

/-- The sign-up affordance of the header: a Clerk SignUpButton in modal
mode wrapping a Button, translated from RootLayout. -/
def signUpButtonNode : Node :=
  Node.element "SignUpButton" [("mode", "modal")]
    [Node.element "Button" [("className", "bg-white text-black hover:bg-gray-100 hover:text-black")]
      [Node.text "Sign Up"]]

/-- The Clerk user menu (avatar) widget. -/
def userButtonNode : Node :=
  Node.element "UserButton" [] []

/-- The persistent header, translated from RootLayout: brand text plus
either the sign-in and sign-up affordances (signed out) or the user
menu (signed in). -/
def headerNode (signedIn : Bool) : Node :=
  Node.element "header" [("className", "bg-gray-950 border-b border-gray-800")]
    [Node.element "div" [("className", "container mx-auto px-4 h-14 flex items-center justify-between")]
      [Node.element "div" [("className", "font-bold text-lg text-white")]
        [Node.text "Link Shortener"],
       Node.element "div" [("className", "flex items-center gap-4")]
        (signedOutChildren signedIn [signInButtonNode, signUpButtonNode] ++
         signedInChildren signedIn [userButtonNode])]]

/-- RootLayout, translated from app/layout.tsx: ClerkProvider wrapping
the html and body elements, the header, and the page children. -/
def RootLayout (signedIn : Bool) (children : Node) : Node :=
  Node.element "ClerkProvider" []
    [Node.element "html" [("lang", "en"), ("className", "dark")]
      [Node.element "body" [("className", "antialiased font-sans")]
        [headerNode signedIn, children]]]

/-- Document metadata, a record of title and description. -/
structure Metadata where
  title : String
  description : String
deriving Repr

/-- The constant metadata object exported by app/layout.tsx. -/
def metadata : Metadata :=
  { title := "Link Shortener - Shorten Links & Track Results",
    description := "Create short, memorable links in seconds. Track clicks, analyze performance, and share with confidence." }

/-- A complete document: the metadata and the body markup. -/
structure Document where
  meta : Metadata
  body : Node
deriving Repr

/-- The document the framework produces for a page: the constant
module-level metadata together with the layout wrapping the page
children. -/
def renderDocument (signedIn : Bool) (children : Node) : Document :=
  { meta := metadata, body := RootLayout signedIn children }

/-- A link record as described by the data-model section: identity,
short code, destination URL, owner, creation timestamp and a click
counter. -/
structure LinkRec where
  id : Nat
  shortCode : String
  destination : String
  owner : String
  createdAt : Nat
  clickCount : Nat
deriving Repr, DecidableEq

/-- External durable state: the links relation held by the database
collaborator, and the auth collaborator answer for the current caller
(the session state visible to the request). -/
structure ExtState where
  links : List LinkRec
  sessionUserId : Option String
deriving Repr, DecidableEq

/-- Steps observable on the request-handling path. -/
inductive Step where
  | authLookup : Step
  | redirectStep : Step
  | dbRead : Step
  | renderStep : Step
deriving Repr, DecidableEq

/-- Instrumented execution of the Home component on a request: reads
the current caller from the auth collaborator, then either redirects or
renders.  Returns the response, the external state after handling, and
the trace of steps taken, in order.  Translated from the source of
Home: no database access and no state mutation appear there. -/
def homeRun (s : ExtState) : Response × ExtState × List Step :=
  let userId := s.sessionUserId
  if truthy userId then
    (Response.redirect "/dashboard", s, [Step.authLookup, Step.redirectStep])
  else
    (Response.render marketingPage, s, [Step.authLookup, Step.renderStep])


/-- Whether a response is a redirect. -/
def isRedirect : Response → Bool
  | Response.redirect _ => true
  | Response.render _ => false

/-- Whether the header rendered for the given authentication state
shows both the sign-in and the sign-up affordances. -/
def showsSignInControls (signedIn : Bool) : Bool :=
  containsElem "SignInButton" (headerNode signedIn) &&
    containsElem "SignUpButton" (headerNode signedIn)

/-- Whether the header rendered for the given authentication state
shows the user menu (avatar) widget. -/
def showsUserMenu (signedIn : Bool) : Bool :=
  containsElem "UserButton" (headerNode signedIn)

/-- Modelled from the spec: the operations of the link lifecycle
described in the data-model section (creation by a validated
submission, click-count mutation by the redirect-resolution path,
destination edit by the owner, explicit deletion).  The
redirect-resolution and link-management code is not present in the
repository source, so these operations are modelled from the words of
the specification. -/
inductive Op where
  | create : Nat → String → String → String → Nat → Op
  | resolve : String → Op
  | updateDest : Nat → String → Op
  | delete : Nat → Op
deriving Repr, DecidableEq

/-- Modelled from the spec: the effect of each lifecycle operation on
the links relation.  Creation inserts a fresh record with a zero click
counter; a resolved redirect increments the click counter of the record
carrying the resolved short code (short codes are unique across the
system, so at most one record matches); a destination edit rewrites
only the destination; deletion removes the record. -/
def applyOp (links : List LinkRec) : Op → List LinkRec
  | Op.create i code dest owner ts =>
      { id := i, shortCode := code, destination := dest, owner := owner,
        createdAt := ts, clickCount := 0 } :: links
  | Op.resolve code =>
      links.map (fun l => if l.shortCode = code then { l with clickCount := l.clickCount + 1 } else l)
  | Op.updateDest i dest =>
      links.map (fun l => if l.id = i then { l with destination := dest } else l)
  | Op.delete i =>
      links.filter (fun l => l.id != i)

/-- Look up the link record with the given identifier. -/
def findLink (i : Nat) : List LinkRec → Option LinkRec
  | [] => none
  | l :: ls => if l.id = i then some l else findLink i ls

/-- A creation operation only ever uses an identifier not already in
the relation; the other operations are unrestricted. -/
def opFresh (op : Op) (links : List LinkRec) : Prop :=
  match op with
  | Op.create i _ _ _ _ => ∀ l ∈ links, l.id ≠ i
  | _ => True

/-- A sample link record used to instantiate the lifecycle theorems. -/
def demoLink : LinkRec :=
  { id := 1, shortCode := "abc", destination := "https://example.com/page",
    owner := "user_1", createdAt := 0, clickCount := 5 }

/-- The sample link record after one resolved redirect. -/
def demoLinkAfter : LinkRec :=
  { demoLink with clickCount := 6 }

theorem anyList_cons_of_head {p : Node → Bool} {c : Node} (cs : List Node)
    (h : anyNode p c = true) : anyList p (c :: cs) = true := by
  simp [anyList, h]

theorem anyNode_of_children {p : Node → Bool} (name : String)
    (attrs : List (String × String)) {cs : List Node}
    (h : anyList p cs = true) : anyNode p (Node.element name attrs cs) = true := by
  simp [anyNode, h]

theorem findLink_mem {i : Nat} : ∀ {ls : List LinkRec} {l : LinkRec},
    findLink i ls = some l → l ∈ ls ∧ l.id = i := by
  intro ls
  induction ls with
  | nil => intro l h; cases h
  | cons x xs ih =>
      intro l h
      by_cases hx : x.id = i
      · rw [findLink, if_pos hx] at h
        cases h
        exact ⟨List.mem_cons_self _ _, hx⟩
      · rw [findLink, if_neg hx] at h
        obtain ⟨hmem, hid⟩ := ih h
        exact ⟨List.mem_cons_of_mem _ hmem, hid⟩

theorem findLink_map (f : LinkRec → LinkRec) (hf : ∀ l, (f l).id = l.id) (i : Nat) :
    ∀ ls : List LinkRec, findLink i (ls.map f) = (findLink i ls).map f := by
  intro ls
  induction ls with
  | nil => rfl
  | cons x xs ih =>
      by_cases hx : x.id = i
      · simp [findLink, List.map, hf, hx]
      · simp [findLink, List.map, hf, hx, ih]

theorem findLink_filter_ne {i j : Nat} (hij : i ≠ j) :
    ∀ ls : List LinkRec, findLink i (ls.filter (fun l => l.id != j)) = findLink i ls := by
  intro ls
  induction ls with
  | nil => rfl
  | cons x xs ih =>
      by_cases hx : x.id = j
      · have hxi : ¬ (x.id = i) := fun h => hij (h.symm.trans hx)
        have hdrop : (x.id != j) = false := by simp [hx]
        rw [List.filter_cons, hdrop]
        simp only [Bool.false_eq_true, if_false]
        rw [ih]
        simp [findLink, hxi]
      · have hkeep : (x.id != j) = true := by simp [hx]
        rw [List.filter_cons, hkeep]
        simp only [if_true]
        by_cases hxi : x.id = i
        · simp [findLink, hxi]
        · simp [findLink, hxi, ih]

theorem findLink_filter_self (i : Nat) :
    ∀ ls : List LinkRec, findLink i (ls.filter (fun l => l.id != i)) = none := by
  intro ls
  induction ls with
  | nil => rfl
  | cons x xs ih =>
      by_cases hx : x.id = i
      · simp [List.filter_cons, hx, ih]
      · simp [List.filter_cons, hx, findLink, ih]

/-- C8: under fresh creation identifiers, no lifecycle operation ever
decreases the click counter of a link record, and the counter increases
by exactly one precisely when the operation is a resolved redirect of
the short code of that record; every other operation leaves it
unchanged. -/
theorem clickCount_monotone (links : List LinkRec) (op : Op) (i : Nat)
    (l l' : LinkRec) (hfresh : opFresh op links)
    (hl : findLink i links = some l)
    (hl' : findLink i (applyOp links op) = some l') :
    l.clickCount ≤ l'.clickCount ∧
      l'.clickCount = l.clickCount +
        (if op = Op.resolve l.shortCode then 1 else 0) := by
  have key : l'.clickCount = l.clickCount +
      (if op = Op.resolve l.shortCode then 1 else 0) := by
    cases op with
    | create i0 code dest owner ts =>
        obtain ⟨hmem, hid⟩ := findLink_mem hl
        have hne : ¬ (i0 = i) := fun h => hfresh l hmem (hid.trans h.symm)
        simp only [applyOp, findLink] at hl'
        rw [if_neg hne] at hl'
        rw [hl] at hl'
        cases hl'
        simp
    | resolve code =>
        have hfid : ∀ x : LinkRec,
            ((if x.shortCode = code then { x with clickCount := x.clickCount + 1 } else x) : LinkRec).id = x.id := by
          intro x
          by_cases h : x.shortCode = code <;> simp [h]
        rw [applyOp, findLink_map _ hfid i links, hl] at hl'
        rw [Option.map_some'] at hl'
        by_cases hc : l.shortCode = code
        · rw [if_pos hc] at hl'
          cases hl'
          simp [hc]
        · rw [if_neg hc] at hl'
          cases hl'
          have : ¬ (code = l.shortCode) := fun h => hc h.symm
          simp [this]
    | updateDest i0 dest =>
        have hfid : ∀ x : LinkRec,
            ((if x.id = i0 then { x with destination := dest } else x) : LinkRec).id = x.id := by
          intro x
          by_cases h : x.id = i0 <;> simp [h]
        rw [applyOp, findLink_map _ hfid i links, hl] at hl'
        rw [Option.map_some'] at hl'
        by_cases hx : l.id = i0
        · rw [if_pos hx] at hl'
          cases hl'
          simp
        · rw [if_neg hx] at hl'
          cases hl'
          simp
    | delete i0 =>
        by_cases hij : i = i0
        · subst hij
          rw [applyOp, findLink_filter_self] at hl'
          exact Option.noConfusion hl'
        · rw [applyOp, findLink_filter_ne hij, hl] at hl'
          cases hl'
          simp
  exact ⟨by rw [key]; exact Nat.le_add_right _ _, key⟩

/-- C8 witness: a relation holding one link with five recorded clicks,
to which a resolved redirect of its short code is applied: the counter
moves to exactly six. -/
theorem clickCount_monotone_witness :
    demoLink.clickCount ≤ demoLinkAfter.clickCount ∧
      demoLinkAfter.clickCount = demoLink.clickCount +
        (if Op.resolve "abc" = Op.resolve demoLink.shortCode then 1 else 0) :=
  clickCount_monotone [demoLink] (Op.resolve "abc") 1 demoLink demoLinkAfter
    trivial (by decide) (by decide)

/-- C1 counterexample: the empty string is a user identifier the
authentication query can return for which Home does not redirect: the
truthiness guard of the source treats it exactly like an absent
identifier, so the marketing content is rendered and no control
transfer happens. -/
theorem home_empty_identifier_no_redirect :
    Home (some "") = Response.render marketingPage ∧
    isRedirect (Home (some "")) = false :=
  ⟨rfl, rfl⟩

/-- C1 (amended): for every caller whose authentication query returns a
nonempty user identifier, a request to the root route results in a
redirect to the dashboard route, and none of the marketing content is
rendered in that response. -/
theorem home_redirects_authenticated (u : String) (h : u ≠ "") :
    Home (some u) = Response.redirect "/dashboard" ∧
    ∀ t : String, respContainsText t (Home (some u)) = false := by
  have ht : truthy (some u) = true := by simp [truthy, h]
  refine ⟨?_, ?_⟩
  · simp [Home, ht]
  · intro t
    simp [Home, ht, respContainsText]

/-- C1 witness: a concrete nonempty identifier for which the redirect
and the absence of marketing content are established. -/
theorem home_redirects_authenticated_witness :
    Home (some "user_2abc") = Response.redirect "/dashboard" ∧
    ∀ t : String, respContainsText t (Home (some "user_2abc")) = false :=
  home_redirects_authenticated "user_2abc" (by decide)

/-- C2: when the authentication query returns no user identifier, Home
renders the static marketing content and issues no redirect. -/
theorem home_unauthenticated_renders_marketing :
    Home none = Response.render marketingPage ∧
    isRedirect (Home none) = false :=
  ⟨rfl, rfl⟩

/-- C3: for every authentication state the header shows the sign-in and
sign-up controls exactly when no caller is authenticated, shows the
user menu exactly when a caller is authenticated, never shows the two
together and never shows neither. -/
theorem header_controls_partition :
    ∀ signedIn : Bool,
      showsSignInControls signedIn = !signedIn ∧
      showsUserMenu signedIn = signedIn ∧
      (showsSignInControls signedIn && showsUserMenu signedIn) = false ∧
      (showsSignInControls signedIn || showsUserMenu signedIn) = true := by
  decide

/-- C4: an unauthenticated request to the root route yields a response
containing the heading text Shorten Links. and a call-to-action linking
to the sign-up route, while a request with a valid session (one whose
nonempty user identifier the authentication query returns) yields a
redirect to the dashboard containing no marketing markup at all. -/
theorem home_example_scenarios (u : String) (h : u ≠ "") :
    respContainsText "Shorten Links." (Home none) = true ∧
    containsHeadingText "Shorten Links." marketingPage = true ∧
    respContainsLinkTo "/sign-up" (Home none) = true ∧
    Home (some u) = Response.redirect "/dashboard" ∧
    (∀ t : String, respContainsText t (Home (some u)) = false ∧
      respContainsLinkTo t (Home (some u)) = false) := by
  have ht : truthy (some u) = true := by simp [truthy, h]
  refine ⟨by decide, by decide, by decide, by simp [Home, ht], ?_⟩
  intro t
  constructor
  · simp [Home, ht, respContainsText]
  · simp [Home, ht, respContainsLinkTo]

/-- C4 witness: a concrete valid session identifier instantiating the
scenario pair. -/
theorem home_example_scenarios_witness :
    respContainsText "Shorten Links." (Home none) = true ∧
    containsHeadingText "Shorten Links." marketingPage = true ∧
    respContainsLinkTo "/sign-up" (Home none) = true ∧
    Home (some "sess_user_9") = Response.redirect "/dashboard" ∧
    (∀ t : String, respContainsText t (Home (some "sess_user_9")) = false ∧
      respContainsLinkTo t (Home (some "sess_user_9")) = false) :=
  home_example_scenarios "sess_user_9" (by decide)

/-- C5: evaluation at the failing input: the marketing page rendered
for an unauthenticated request to the root route contains plain
navigation links to the separate sign-in and sign-up routes, and
contains no modal-opening SignInButton or SignUpButton affordance at
all, so the sign-in and sign-up affordances of this page are not
delegated to the modal UI that the repository documentation mandates. -/
theorem home_marketing_navigates_to_auth_pages :
    respContainsLinkTo "/sign-in" (Home none) = true ∧
    respContainsLinkTo "/sign-up" (Home none) = true ∧
    containsElem "SignInButton" marketingPage = false ∧
    containsElem "SignUpButton" marketingPage = false := by
  decide

/-- C6 counterexample: an unauthenticated request to the root route is
handled with no database read at all: the step trace is the
authentication lookup followed directly by the template render, so the
pipeline stated by the claim does not describe this request. -/
theorem home_trace_without_dbRead :
    (homeRun { links := [], sessionUserId := none }).2.2 =
      [Step.authLookup, Step.renderStep] ∧
    ((homeRun { links := [], sessionUserId := none }).2.2).contains Step.dbRead = false := by
  decide

/-- C6 (amended): every request to the root route is processed as the
authentication lookup first, followed by the conditional redirect when
the caller is authenticated and by the template render otherwise; no
database read occurs on this path. -/
theorem home_pipeline_order (s : ExtState) :
    (homeRun s).2.2 =
      (if truthy s.sessionUserId then [Step.authLookup, Step.redirectStep]
       else [Step.authLookup, Step.renderStep]) ∧
    ((homeRun s).2.2).contains Step.dbRead = false ∧
    ((homeRun s).2.2).head? = some Step.authLookup := by
  by_cases h : truthy s.sessionUserId <;> simp [homeRun, h]

/-- C7: handling a request to the root route leaves the external state
untouched for every caller and every stored state: the links relation,
every click counter in it and the session state after handling are the
state before, whether the caller is authenticated or not. -/
theorem home_no_side_effects (s : ExtState) :
    (homeRun s).2.1 = s := by
  by_cases h : truthy s.sessionUserId <;> simp [homeRun, h]

/-- C9 counterexample: two non-null user identifiers for which the
results differ: the empty identifier leads to the marketing render
while a nonempty one leads to the redirect, so the response is not
identical across all non-null identifiers. -/
theorem home_differs_on_some_identifiers :
    isRedirect (Home (some "")) = false ∧
    isRedirect (Home (some "user_1")) = true :=
  ⟨rfl, rfl⟩

/-- C9 (amended): the response depends only on the truthiness of the
returned identifier: any two nonempty identifiers produce the identical
redirect to the dashboard, and unauthenticated requests always render
the identical marketing markup. -/
theorem home_noninterference (u v : String) (hu : u ≠ "") (hv : v ≠ "") :
    Home (some u) = Home (some v) ∧
    Home (some u) = Response.redirect "/dashboard" ∧
    Home none = Response.render marketingPage := by
  have htu : truthy (some u) = true := by simp [truthy, hu]
  have htv : truthy (some v) = true := by simp [truthy, hv]
  refine ⟨?_, ?_, rfl⟩ <;> simp [Home, htu, htv]

/-- C9 witness: two concrete nonempty identifiers yielding the
identical redirect. -/
theorem home_noninterference_witness :
    Home (some "alice") = Home (some "bob") ∧
    Home (some "alice") = Response.redirect "/dashboard" ∧
    Home none = Response.render marketingPage :=
  home_noninterference "alice" "bob" (by decide) (by decide)

/-- C10: for every authentication state and every page content, the
document carries the constant metadata title and the layout always
contains the brand text Link Shortener in its header. -/
theorem layout_constant_branding (signedIn : Bool) (children : Node) :
    (renderDocument signedIn children).meta.title =
      "Link Shortener - Shorten Links & Track Results" ∧
    (renderDocument signedIn children).meta = metadata ∧
    containsText "Link Shortener" (RootLayout signedIn children) = true := by
  refine ⟨rfl, rfl, ?_⟩
  have hheader : anyNode (isText "Link Shortener") (headerNode signedIn) = true := by
    cases signedIn <;> decide
  unfold containsText RootLayout
  apply anyNode_of_children
  apply anyList_cons_of_head
  apply anyNode_of_children
  apply anyList_cons_of_head
  apply anyNode_of_children
  apply anyList_cons_of_head
  exact hheader
